import Mathlib

/-!
Verification development for the incident correlation and risk-scoring engine
(geocoding resolver in `src/tools/geocoder.py`, near-duplicate correlator in
`src/database/chroma_manager.py`, risk scorer in `src/tools/risk_calculator.py`,
schemas in `src/models/schemas.py`).

The Python code is shallowly embedded: Python floats are modelled as exact
rationals (ℚ) where the code only compares and copies them, and as real numbers
(ℝ) where the code applies transcendental functions (haversine, log2);
`datetime` values are modelled as a wall-clock value in seconds together with an
optional UTC-offset (None = naive); dicts with optional keys become structures
with `Option` fields, where `none` models an absent key; Python functions that
can raise an uncaught exception return `Option` (with `none` for the escaping
exception).  Mutation of caller-supplied dicts is modelled by returning the
post-call state of the list explicitly.
-/

/-! ## Python string primitives used by the code -/

/-- Model of Python `str.lower()`.  The repository only lowercases ASCII and
Hebrew text; Hebrew has no case, so ASCII lowering is faithful here. -/
def pyLower (s : String) : String := String.mk (s.toList.map Char.toLower)

/-- Helper for substring containment on character lists. -/
def containsSub : List Char → List Char → Bool
  | n, [] => n.isEmpty
  | n, c :: t => n.isPrefixOf (c :: t) || containsSub n t

/-- Model of Python `needle in hay` on strings (substring containment). -/
def pyIn (needle hay : String) : Bool := containsSub needle.toList hay.toList

/-- Model of Python `str.strip()` (whitespace trimming at both ends). -/
def pyStrip (s : String) : String :=
  String.mk
    (((s.toList.dropWhile Char.isWhitespace).reverse.dropWhile
      Char.isWhitespace).reverse)

/-- Helper for `pyTitle`: the Boolean records whether the previous character
was alphabetic. -/
def pyTitleAux : Bool → List Char → List Char
  | _, [] => []
  | prevAlpha, c :: t =>
    (if c.isAlpha then (if prevAlpha then c.toLower else c.toUpper) else c) ::
      pyTitleAux c.isAlpha t

/-- Model of Python `str.title()`: the first letter of every alphabetic run is
uppercased, the rest lowercased.  Characters without case (Hebrew) are
unchanged, exactly as in Python. -/
def pyTitle (s : String) : String := String.mk (pyTitleAux false s.toList)

/-- Truthiness of a Python string (`if s:`). -/
def pyTruthy (s : String) : Bool := s ≠ ""

/-- Truthiness of an optional Python string (`if city:` where city may be
`None`). -/
def optTruthy : Option String → Bool
  | none => false
  | some s => pyTruthy s

/-- Python `f"{city}"` for a value that is a string or `None`. -/
def pyStrOfOptCity : Option String → String
  | none => "None"
  | some s => s

/-! ## Python `datetime` model

A `PyDateTime` is a wall-clock reading in seconds together with an optional
UTC offset in seconds: `tz = none` models a naive datetime, `tz = some o` an
aware one with `utcoffset() = o`. -/

structure PyDateTime where
  wall : ℤ
  tz : Option ℤ
  deriving DecidableEq, Repr

/-- The UTC instant denoted by a datetime once it has been made aware with
`replace(tzinfo=timezone.utc)` if it was naive: a naive wall-clock is read as
UTC (offset 0), an aware one subtracts its offset. -/
def PyDateTime.instant (d : PyDateTime) : ℤ := d.wall - (d.tz.getD 0)

/-! ## Geocoder (`src/tools/geocoder.py`)

Coordinates and confidences in the geocoder are Python floats that are only
produced, bounds-checked and copied, never subjected to transcendental
functions, so they are modelled as exact rationals and every geocoder
definition is computable. -/

/-- Embedding of the `GeocodingResult` dataclass with its field defaults. -/
structure GeocodingResult where
  success : Bool
  latitude : ℚ := 0.0
  longitude : ℚ := 0.0
  formatted_address : String := ""
  method : String := "unknown"
  confidence : ℚ := 0.0
  error : String := ""
  deriving DecidableEq, Repr

/-- Embedding of the `GeocodedLocation` pydantic model (the fields the
geocoder populates). -/
structure GeocodedLocation where
  latitude : ℚ
  longitude : ℚ
  formatted_address : String
  geocode_method : String
  confidence : ℚ
  deriving DecidableEq, Repr

/-- External Google collaborator, modelled as a deterministic oracle.
`hasClient = false` models `gmaps = None` (no API key).  A response of `none`
models a raised exception (caught by the code), `some rs` the result list:
each geocoding result carries (lat, lng, formatted_address), each places
result (lat, lng, name, formatted_address). -/
structure GClient where
  hasClient : Bool
  geocodeResp : String → Option (List (ℚ × ℚ × String))
  placesResp : String → Option (List (ℚ × ℚ × String × String))

/-- The `KNOWN_LOCATIONS` table, in source order.  Python dict semantics:
repeated keys (the re-listed entries at the end of the source literal, all
carrying identical coordinates) keep their first position, so the embedding
lists each key once.  Note the source really does contain the capitalised key
`"Tel Aviv"` bound to the Um el Fahem coordinates. -/
def KNOWN_LOCATIONS : List (String × ℚ × ℚ) := [
  ("tel aviv", 32.0853, 34.7818),
  ("תל אביב", 32.0853, 34.7818),
  ("תל-אביב", 32.0853, 34.7818),
  ("תא", 32.0853, 34.7818),
  ("jerusalem", 31.7683, 35.2137),
  ("ירושלים", 31.7683, 35.2137),
  ("י-ם", 31.7683, 35.2137),
  ("haifa", 32.7940, 34.9896),
  ("חיפה", 32.7940, 34.9896),
  ("beer sheva", 31.2518, 34.7913),
  ("באר שבע", 31.2518, 34.7913),
  ("ב\"ש", 31.2518, 34.7913),
  ("beersheba", 31.2518, 34.7913),
  ("rishon lezion", 31.9730, 34.7925),
  ("ראשון לציון", 31.9730, 34.7925),
  ("ראשל\"צ", 31.9730, 34.7925),
  ("petah tikva", 32.0841, 34.8878),
  ("פתח תקווה", 32.0841, 34.8878),
  ("פ\"ת", 32.0841, 34.8878),
  ("holon", 32.0117, 34.7728),
  ("חולון", 32.0117, 34.7728),
  ("bnei brak", 32.0833, 34.8333),
  ("בני ברק", 32.0833, 34.8333),
  ("ramat gan", 32.0700, 34.8236),
  ("רמת גן", 32.0700, 34.8236),
  ("bat yam", 32.0167, 34.7500),
  ("בת ים", 32.0167, 34.7500),
  ("givatayim", 32.0714, 34.8117),
  ("גבעתיים", 32.0714, 34.8117),
  ("herzliya", 32.1653, 34.8458),
  ("הרצליה", 32.1653, 34.8458),
  ("raanana", 32.1833, 34.8667),
  ("רעננה", 32.1833, 34.8667),
  ("kfar saba", 32.1781, 34.9069),
  ("כפר סבא", 32.1781, 34.9069),
  ("hod hasharon", 32.1500, 34.8833),
  ("הוד השרון", 32.1500, 34.8833),
  ("netanya", 32.3286, 34.8567),
  ("נתניה", 32.3286, 34.8567),
  ("rehovot", 31.8928, 34.8113),
  ("רחובות", 31.8928, 34.8113),
  ("ashdod", 31.8044, 34.6553),
  ("אשדוד", 31.8044, 34.6553),
  ("ashkelon", 31.6658, 34.5664),
  ("אשקלון", 31.6658, 34.5664),
  ("hadera", 32.4339, 34.9197),
  ("חדרה", 32.4339, 34.9197),
  ("caesarea", 32.5000, 34.9000),
  ("קיסריה", 32.5000, 34.9000),
  ("zichron yaakov", 32.5667, 34.9500),
  ("זכרון יעקב", 32.5667, 34.9500),
  ("nahariya", 33.0089, 35.0931),
  ("נהריה", 33.0089, 35.0931),
  ("kiryat shmona", 33.2075, 35.5697),
  ("קרית שמונה", 33.2075, 35.5697),
  ("safed", 32.9658, 35.4983),
  ("צפת", 32.9658, 35.4983),
  ("tiberias", 32.7922, 35.5311),
  ("טבריה", 32.7922, 35.5311),
  ("karmiel", 32.9136, 35.2961),
  ("כרמיאל", 32.9136, 35.2961),
  ("afula", 32.6100, 35.2883),
  ("עפולה", 32.6100, 35.2883),
  ("beit shean", 32.5000, 35.5000),
  ("בית שאן", 32.5000, 35.5000),
  ("yokneam", 32.6592, 35.1094),
  ("יקנעם", 32.6592, 35.1094),
  ("kiryat ata", 32.8000, 35.1000),
  ("קרית אתא", 32.8000, 35.1000),
  ("kiryat bialik", 32.8333, 35.0833),
  ("קרית ביאליק", 32.8333, 35.0833),
  ("kiryat motzkin", 32.8333, 35.0667),
  ("קרית מוצקין", 32.8333, 35.0667),
  ("kiryat yam", 32.8500, 35.0667),
  ("קרית ים", 32.8500, 35.0667),
  ("nesher", 32.7667, 35.0333),
  ("נשר", 32.7667, 35.0333),
  ("tirat carmel", 32.7667, 34.9667),
  ("טירת כרמל", 32.7667, 34.9667),
  ("eilat", 29.5569, 34.9517),
  ("אילת", 29.5569, 34.9517),
  ("dimona", 31.0667, 35.0333),
  ("דימונה", 31.0667, 35.0333),
  ("arad", 31.2589, 35.2128),
  ("ערד", 31.2589, 35.2128),
  ("sderot", 31.5250, 34.5964),
  ("שדרות", 31.5250, 34.5964),
  ("ofakim", 31.3167, 34.6167),
  ("אופקים", 31.3167, 34.6167),
  ("netivot", 31.4167, 34.5833),
  ("נתיבות", 31.4167, 34.5833),
  ("kiryat gat", 31.6100, 34.7644),
  ("קרית גת", 31.6100, 34.7644),
  ("beit shemesh", 31.7514, 34.9886),
  ("בית שמש", 31.7514, 34.9886),
  ("modiin", 31.8989, 35.0103),
  ("מודיעין", 31.8989, 35.0103),
  ("maale adumim", 31.7772, 35.3008),
  ("מעלה אדומים", 31.7772, 35.3008),
  ("Tel Aviv", 32.5167, 35.1500),
  ("um el fahem", 32.5167, 35.1500),
  ("אום אל-פחם", 32.5167, 35.1500),
  ("baqa al-gharbiyye", 32.4167, 35.0333),
  ("baqa", 32.4167, 35.0333),
  ("בקה אל-גרבייה", 32.4167, 35.0333),
  ("kafr qasim", 32.1136, 34.9786),
  ("kfar qassem", 32.1136, 34.9786),
  ("כפר קאסם", 32.1136, 34.9786),
  ("tira", 32.2333, 34.9500),
  ("טירה", 32.2333, 34.9500),
  ("tayibe", 32.2667, 35.0000),
  ("טייבה", 32.2667, 35.0000),
  ("qalansawe", 32.2833, 34.9833),
  ("קלנסווה", 32.2833, 34.9833),
  ("kafr qara", 32.5000, 35.0833),
  ("כפר קרע", 32.5000, 35.0833),
  ("ar\x27ara", 32.5000, 35.1000),
  ("ערערה", 32.5000, 35.1000),
  ("jaljulia", 32.1500, 34.9500),
  ("ג\x27לג\x27וליה", 32.1500, 34.9500),
  ("nazareth", 32.6996, 35.3035),
  ("נצרת", 32.6996, 35.3035),
  ("الناصرة", 32.6996, 35.3035),
  ("shefa-amr", 32.8056, 35.1697),
  ("shfaram", 32.8056, 35.1697),
  ("שפרעם", 32.8056, 35.1697),
  ("sakhnin", 32.8667, 35.3000),
  ("סח\x27נין", 32.8667, 35.3000),
  ("tamra", 32.8500, 35.2000),
  ("טמרה", 32.8500, 35.2000),
  ("arraba", 32.8500, 35.3333),
  ("עראבה", 32.8500, 35.3333),
  ("deir hanna", 32.8667, 35.3667),
  ("דיר חנא", 32.8667, 35.3667),
  ("majd al-krum", 32.9167, 35.2500),
  ("מג\x27ד אל-כרום", 32.9167, 35.2500),
  ("kafr manda", 32.8167, 35.2667),
  ("כפר מנדא", 32.8167, 35.2667),
  ("kafr kanna", 32.7500, 35.3333),
  ("כפר כנא", 32.7500, 35.3333),
  ("yaffa an-naseriyye", 32.6833, 35.2833),
  ("יפיע", 32.6833, 35.2833),
  ("iksal", 32.6833, 35.3500),
  ("אכסאל", 32.6833, 35.3500),
  ("ibillin", 32.8333, 35.2333),
  ("אבילין", 32.8333, 35.2333),
  ("kabul", 32.8667, 35.2000),
  ("כאבול", 32.8667, 35.2000),
  ("nahef", 32.9500, 35.3167),
  ("נחף", 32.9500, 35.3167),
  ("judeide-maker", 32.9333, 35.2500),
  ("ג\x27דיידה-מכר", 32.9333, 35.2500),
  ("rahat", 31.3925, 34.7539),
  ("רהט", 31.3925, 34.7539),
  ("hura", 31.2933, 34.9300),
  ("חורה", 31.2933, 34.9300),
  ("tel sheva", 31.2500, 34.8167),
  ("תל שבע", 31.2500, 34.8167),
  ("kuseife", 31.2167, 34.9833),
  ("כסייפה", 31.2167, 34.9833),
  ("laqye", 31.3333, 34.8500),
  ("לקייה", 31.3333, 34.8500),
  ("segev shalom", 31.2500, 34.9167),
  ("שגב שלום", 31.2500, 34.9167),
  ("arara banegev", 31.2833, 34.9000),
  ("ערערה-בנגב", 31.2833, 34.9000),
  ("acre", 32.9278, 35.0817),
  ("akko", 32.9278, 35.0817),
  ("עכו", 32.9278, 35.0817),
  ("lod", 31.9514, 34.8917),
  ("לוד", 31.9514, 34.8917),
  ("ramle", 31.9292, 34.8628),
  ("רמלה", 31.9292, 34.8628),
  ("jaffa", 32.0503, 34.7597),
  ("יפו", 32.0503, 34.7597)
]

/-- Dict lookup in `KNOWN_LOCATIONS` (first matching key). -/
def knownLookup (k : String) : Option (ℚ × ℚ) :=
  (KNOWN_LOCATIONS.find? (fun e => e.1 == k)).map (fun e => e.2)

/-- Embedding of `Geocoder._try_google_geocoding`. -/
def _try_google_geocoding (g : GClient) (query : String) (city : Option String) :
    GeocodingResult :=
  if ¬g.hasClient then { success := false, error := "No API key" }
  else
    let sq :=
      if optTruthy city ∧ ¬pyIn (pyLower (city.getD "")) (pyLower query) then
        query ++ ", " ++ city.getD ""
      else query
    let sq :=
      if ¬pyIn "israel" (pyLower sq) ∧ ¬pyIn "ישראל" sq then sq ++ ", Israel"
      else sq
    match g.geocodeResp sq with
    | none => { success := false, error := "exception" }
    | some [] => { success := false, error := "No results in Israel" }
    | some ((lat, lon, addr) :: _) =>
      if 29 ≤ lat ∧ lat ≤ 34 ∧ 34 ≤ lon ∧ lon ≤ 36 then
        { success := true, latitude := lat, longitude := lon,
          formatted_address := addr, method := "google_geocoding",
          confidence := 0.9 }
      else { success := false, error := "No results in Israel" }

/-- Embedding of `Geocoder._try_google_places`. -/
def _try_google_places (g : GClient) (landmark : String) (city : Option String) :
    GeocodingResult :=
  if ¬g.hasClient then { success := false, error := "No API key" }
  else
    let sq :=
      if optTruthy city then landmark ++ " in " ++ city.getD "" else landmark
    match g.placesResp sq with
    | none => { success := false, error := "exception" }
    | some [] => { success := false, error := "No places found" }
    | some ((lat, lon, name, addr) :: _) =>
      if 29 ≤ lat ∧ lat ≤ 34 ∧ 34 ≤ lon ∧ lon ≤ 36 then
        { success := true, latitude := lat, longitude := lon,
          formatted_address := if name ≠ "" then name ++ ", " ++ addr else addr,
          method := "google_places", confidence := 0.85 }
      else { success := false, error := "No places found" }

/-- Embedding of `Geocoder._try_known_locations`. -/
def _try_known_locations (location : String) : GeocodingResult :=
  let ll := pyStrip (pyLower location)
  match knownLookup ll with
  | some (lat, lon) =>
    { success := true, latitude := lat, longitude := lon,
      formatted_address := pyTitle location, method := "known_locations",
      confidence := 0.7 }
  | none =>
    match KNOWN_LOCATIONS.find? (fun e => pyIn e.1 ll || pyIn ll e.1) with
    | some (name, lat, lon) =>
      { success := true, latitude := lat, longitude := lon,
        formatted_address := pyTitle name, method := "known_locations_partial",
        confidence := 0.6 }
    | none => { success := false, error := "Not in known locations" }

/-- Embedding of `Geocoder._extract_and_fallback`.  Note the terminal
default-center branch has `success = false`. -/
def _extract_and_fallback (text : String) : GeocodingResult :=
  let tl := pyLower text
  match KNOWN_LOCATIONS.find? (fun e => pyIn e.1 tl) with
  | some (name, lat, lon) =>
    { success := true, latitude := lat, longitude := lon,
      formatted_address := pyTitle name ++ " (approximate)",
      method := "text_extraction_fallback", confidence := 0.4 }
  | none =>
    { success := false, latitude := 32.0, longitude := 35.0,
      formatted_address := "Israel (location unknown)",
      method := "default_fallback", confidence := 0.1,
      error := "Could not geocode location" }

/-- Python `not result or not result.success` where `result` is the
`Optional[GeocodingResult]` local of `Geocoder.geocode`. -/
def resFail : Option GeocodingResult → Bool
  | none => true
  | some r => !r.success

/-- The strategy pipeline of `Geocoder.geocode` after a cache miss, lines
276–307 of `geocoder.py`.  Returns `none` exactly when the Python code reaches
`result.success` with `result = None` and raises `AttributeError`. -/
def resolveUncached (g : GClient) (location_description : String)
    (city : Option String) : Option GeocodingResult :=
  let r1 : Option GeocodingResult :=
    if g.hasClient then
      let a := _try_google_geocoding g location_description city
      let b :=
        if !a.success ∧ optTruthy city then
          _try_google_geocoding g (city.getD "") none
        else a
      let c := if !b.success then _try_google_places g location_description city
               else b
      some c
    else none
  let r2 : Option GeocodingResult :=
    if resFail r1 then
      let ra :=
        if pyTruthy location_description ∧ optTruthy city then
          some (_try_known_locations (location_description ++ " " ++ city.getD ""))
        else r1
      let rb :=
        if resFail ra ∧ optTruthy city then
          some (_try_known_locations (city.getD ""))
        else ra
      let rc :=
        if resFail rb ∧ pyTruthy location_description then
          some (_try_known_locations location_description)
        else rb
      rc
    else r1
  match r2 with
  | none => none
  | some r =>
    some (if !r.success then _extract_and_fallback location_description else r)

/-- Conversion of the cached `GeocodingResult` to the returned
`GeocodedLocation` (both return points of `Geocoder.geocode` build it this
way). -/
def toGeocodedLocation (r : GeocodingResult) : GeocodedLocation :=
  { latitude := r.latitude, longitude := r.longitude,
    formatted_address := r.formatted_address, geocode_method := r.method,
    confidence := r.confidence }

/-- Geocoder cache: insertion-ordered association list; insertion prepends,
lookup takes the first match, which observably agrees with the Python dict. -/
abbrev GeoCache := List (String × GeocodingResult)

/-- The cache key of `Geocoder.geocode`:
`f"{location_description}|{city}".lower()`. -/
def geocodeCacheKey (location_description : String) (city : Option String) :
    String :=
  pyLower (location_description ++ "|" ++ pyStrOfOptCity city)

/-- Embedding of `Geocoder.geocode`.  The cache is passed and returned
explicitly (it is the instance's only mutable state); a `none` result models
the uncaught `AttributeError` on the `result.success` access when every
strategy block was skipped. -/
def geocode (g : GClient) (cache : GeoCache) (location_description : String)
    (city : Option String) : Option (GeocodedLocation × GeoCache) :=
  let key := geocodeCacheKey location_description city
  match cache.lookup key with
  | some cached => some (toGeocodedLocation cached, cache)
  | none =>
    match resolveUncached g location_description city with
    | none => none
    | some res => some (toGeocodedLocation res, (key, res) :: cache)

/-! ## Great-circle distance (shared by the correlator and the risk scorer)

Both `chroma_manager.py` and `risk_calculator.py` define the same haversine
with Earth radius 6371 km; the computation is real-valued (sin, cos, sqrt,
atan2), so this part of the embedding lives in ℝ and is noncomputable. -/

/-- Model of `math.radians`. -/
noncomputable def pyRadians (d : ℝ) : ℝ := d * Real.pi / 180

/-- Model of `math.atan2` (the C library convention). -/
noncomputable def pyAtan2 (y x : ℝ) : ℝ :=
  if 0 < x then Real.arctan (y / x)
  else if x < 0 ∧ 0 ≤ y then Real.arctan (y / x) + Real.pi
  else if x < 0 ∧ y < 0 then Real.arctan (y / x) - Real.pi
  else if x = 0 ∧ 0 < y then Real.pi / 2
  else if x = 0 ∧ y < 0 then -(Real.pi / 2)
  else 0

/-- Embedding of `haversine_distance` (identical in `risk_calculator.py` and
in the local closure inside `ChromaManager.check_similar_incident`). -/
noncomputable def haversine_distance (lat1 lon1 lat2 lon2 : ℝ) : ℝ :=
  let R : ℝ := 6371
  let lat1_rad := pyRadians lat1
  let lat2_rad := pyRadians lat2
  let delta_lat := pyRadians (lat2 - lat1)
  let delta_lon := pyRadians (lon2 - lon1)
  let a := Real.sin (delta_lat / 2) ^ 2 +
    Real.cos lat1_rad * Real.cos lat2_rad * Real.sin (delta_lon / 2) ^ 2
  let c := 2 * pyAtan2 (Real.sqrt a) (Real.sqrt (1 - a))
  R * c

/-! ## Near-duplicate correlator (`ChromaManager.check_similar_incident`) -/

/-- The `timestamp` metadata entry of a stored incident as the correlator sees
it: `missing` models an absent key or empty string (line 517 skips it),
`unparsable` a string `datetime.fromisoformat` rejects (the `except` skips
it), and `parsed utcSecs` a successfully parsed value.  After the code's
normalisation branch a successfully parsed stored timestamp is always aware,
so only its UTC instant matters. -/
inductive StoredTs where
  | missing : StoredTs
  | unparsable : StoredTs
  | parsed : ℤ → StoredTs
  deriving DecidableEq, Repr

/-- Metadata of a stored incident, with `Option` fields for `metadata.get`
with defaults. -/
structure StoredMeta where
  event_type : Option String
  timestamp : StoredTs
  lat : Option ℝ
  lon : Option ℝ
  city : Option String
  street : Option String
  incident_id : Option String

/-- One loop iteration of `check_similar_incident` for a single
`(doc, score)` pair from the similarity search: `true` means this stored
incident is accepted as the near-duplicate match.  The candidate's
`timestamp` parameter may be naive; the code compares the parsed stored
timestamp (always aware) against `time_window_start`/`time_window_end`, which
inherit the candidate's tz-awareness, so when the candidate is naive the
comparison raises `TypeError`, which the surrounding `except` turns into
`continue` — the computed `timestamp_aware` local is never used. -/
noncomputable def acceptsStored (city : String) (lat lon : ℝ)
    (event_type : String)
    (timestamp : PyDateTime) (street : Option String)
    (time_window_hours : ℤ) (embedding_distance_threshold : ℚ)
    (distance_threshold_km : ℝ) (meta : Option StoredMeta) (score : ℚ) :
    Bool :=
  if score > embedding_distance_threshold then false
  else
    match meta with
    | none => false
    | some m =>
      if (m.event_type.getD "") ≠ event_type then false
      else
        match m.timestamp with
        | StoredTs.missing => false
        | StoredTs.unparsable => false
        | StoredTs.parsed e =>
          match timestamp.tz with
          | none => false
          | some o =>
            let window_start := timestamp.wall - time_window_hours * 3600 - o
            let window_end := timestamp.wall + 3600 - o
            if e < window_start ∨ e > window_end then false
            else
              let existing_lat := m.lat.getD 0
              let existing_lon := m.lon.getD 0
              let existing_city := m.city.getD ""
              let existing_street := m.street.getD ""
              let distance_km :=
                haversine_distance lat lon existing_lat existing_lon
              let city_match :=
                (pyLower existing_city == pyLower city) ||
                pyIn (pyLower existing_city) (pyLower city) ||
                pyIn (pyLower city) (pyLower existing_city)
              let street_match :=
                if optTruthy street ∧ pyTruthy existing_street then
                  let sl := pyStrip (pyLower (street.getD ""))
                  let esl := pyStrip (pyLower existing_street)
                  if pyTruthy sl ∧ pyTruthy esl then
                    (sl == esl) || pyIn sl esl || pyIn esl sl
                  else true
                else true
              city_match &&
                (street_match ||
                  @decide (distance_km < distance_threshold_km)
                    (Classical.propDecidable _))

/-- Embedding of the filtering loop of `ChromaManager.check_similar_incident`
over the (already similarity-ranked) result list of
`similarity_search_with_score(summary, k=10)`, which is supplied here as an
explicit input (the vector index is an external collaborator).  A pair with
first component `none` models a document with empty metadata (skipped).  The
outer result is `some payload` when the loop returns
`metadata.get("incident_id")` for the first accepted entry — `payload` is that
(possibly absent) id — and `none` when the loop falls through and the method
returns `None`. -/
noncomputable def check_similar_incident
    (candidates : List (Option StoredMeta × ℚ)) (city : String) (lat lon : ℝ)
    (event_type : String) (timestamp : PyDateTime)
    (street : Option String := none) (time_window_hours : ℤ := 6)
    (embedding_distance_threshold : ℚ := 0.4)
    (distance_threshold_km : ℝ := 2.0) : Option (Option String) :=
  match candidates with
  | [] => none
  | (meta, score) :: rest =>
    if acceptsStored city lat lon event_type timestamp street
        time_window_hours embedding_distance_threshold distance_threshold_km
        meta score then
      some (meta.bind (fun m => m.incident_id))
    else
      check_similar_incident rest city lat lon event_type timestamp street
        time_window_hours embedding_distance_threshold distance_threshold_km

/-! ## Risk calculator (`src/tools/risk_calculator.py`)

The scorer operates on a list of incident dicts.  Absent keys are `none`;
`tsv` is the parsed value of the `"timestamp"` entry (`none` models a missing
key or a string `datetime.fromisoformat` rejects — both take the `except:
continue` path), `d_distance_km` and `d_timestamp` are the `"_distance_km"`
and `"_timestamp"` entries that `_filter_incidents` writes into the dicts it
keeps.  The default `RiskConfig()` values are embedded as literals. -/

structure MIncident where
  tsv : Option PyDateTime
  lat : Option ℝ
  lon : Option ℝ
  severity_score : Option ℝ
  event_type : Option String
  d_distance_km : Option ℝ := none
  d_timestamp : Option PyDateTime := none

/-- Embedding of `DEFAULT_CONFIG.event_weights.get(event_type, 1.0)`. -/
def event_weight (t : String) : ℝ :=
  if t = "shooting" then 1.5
  else if t = "stabbing" then 1.4
  else if t = "explosion" then 1.5
  else if t = "arson" then 1.3
  else if t = "brawl" then 1.0
  else if t = "police_activity" then 0.8
  else if t = "roadblock" then 0.5
  else if t = "accident" then 0.6
  else if t = "unknown" then 0.7
  else 1.0

open Classical in
/-- One iteration of the `_filter_incidents` loop: `none` when the incident is
skipped (`continue`), `some inc'` when it is appended to `filtered` — `inc'`
is the same dict after the loop wrote `"_distance_km"` and `"_timestamp"` into
it.  `cutoff` is the timezone-aware `analysis_start` instant in UTC seconds;
a naive incident timestamp is made aware with `replace(tzinfo=utc)` before the
comparison, which `PyDateTime.instant` captures. -/
noncomputable def filterStep (center_lat center_lon radius_km : ℝ)
    (cutoff : ℤ) (inc : MIncident) : Option MIncident :=
  match inc.tsv with
  | none => none
  | some ts =>
    if ts.instant < cutoff then none
    else
      let lat := inc.lat.getD 0
      let lon := inc.lon.getD 0
      let distance := haversine_distance center_lat center_lon lat lon
      if distance ≤ radius_km then
        some { inc with d_distance_km := some distance, d_timestamp := some ts }
      else none

/-- Embedding of `RiskCalculator._filter_incidents` (the returned `filtered`
list). -/
noncomputable def _filter_incidents (incidents : List MIncident)
    (center_lat center_lon radius_km : ℝ) (cutoff : ℤ) : List MIncident :=
  incidents.filterMap (filterStep center_lat center_lon radius_km cutoff)

/-- The caller's incident list after `_filter_incidents` returns: the loop
mutates (in place) exactly the dicts it keeps, adding the two underscore
keys; skipped dicts are untouched. -/
noncomputable def _filter_incidents_post (incidents : List MIncident)
    (center_lat center_lon radius_km : ℝ) (cutoff : ℤ) : List MIncident :=
  incidents.map
    (fun inc => (filterStep center_lat center_lon radius_km cutoff inc).getD inc)

/-- Accumulator of the `_calculate_metrics` loop. -/
structure Metrics where
  events_24h : ℕ
  events_7d : ℕ
  severity_sum : ℝ
  weighted_severity : ℝ
  type_counts : List (String × ℕ)
  most_recent : Option ℤ

/-- Insertion-ordered update of `type_counts[event_type] =
type_counts.get(event_type, 0) + 1`. -/
def bumpCount : List (String × ℕ) → String → List (String × ℕ)
  | [], t => [(t, 1)]
  | (k, n) :: rest, t =>
    if k = t then (k, n + 1) :: rest else (k, n) :: bumpCount rest t

/-- One iteration of the `_calculate_metrics` loop.  `now` is the aware UTC
instant captured by `calculate_risk`; `incident.get("_timestamp", now)` falls
back to it when the underscore key is absent, and naive stored timestamps are
made aware with `replace(tzinfo=utc)` (captured by `PyDateTime.instant`).
The recency cutoffs use `recent_hours = 24` and `week_hours = 168`, the
recency weights are 3.0 / 2.0 / 1.0. -/
noncomputable def metricsStep (now : ℤ) (m : Metrics) (inc : MIncident) :
    Metrics :=
  let timestamp := inc.d_timestamp.getD { wall := now, tz := some 0 }
  let severity := inc.severity_score.getD 5
  let event_type := inc.event_type.getD "unknown"
  let ts_aware := timestamp.instant
  let most_recent :=
    match m.most_recent with
    | none => some ts_aware
    | some p => if ts_aware > p then some ts_aware else some p
  let bucket : ℕ × ℕ × ℝ :=
    if ts_aware ≥ now - 24 * 3600 then (m.events_24h + 1, m.events_7d, 3.0)
    else if ts_aware ≥ now - 168 * 3600 then (m.events_24h, m.events_7d + 1, 2.0)
    else (m.events_24h, m.events_7d, 1.0)
  { events_24h := bucket.1,
    events_7d := bucket.2.1,
    severity_sum := m.severity_sum + severity,
    weighted_severity :=
      m.weighted_severity + severity * bucket.2.2 * event_weight event_type,
    type_counts := bumpCount m.type_counts event_type,
    most_recent := most_recent }

/-- Embedding of `RiskCalculator._calculate_metrics`, including the final
`events_7d += events_24h`. -/
noncomputable def _calculate_metrics (incidents : List MIncident) (now : ℤ) :
    Metrics :=
  let m := incidents.foldl (metricsStep now)
    { events_24h := 0, events_7d := 0, severity_sum := 0,
      weighted_severity := 0, type_counts := [], most_recent := none }
  { m with events_7d := m.events_7d + m.events_24h }

/-- Embedding of `RiskCalculator._calculate_final_score` with the default
config (`events_for_base_score = 5`, caps 4.0 / 4.0 / 2.0). -/
noncomputable def _calculate_final_score (m : Metrics) (total_events : ℕ) :
    ℝ :=
  if total_events = 0 then 0.0
  else
    let event_ratio : ℝ := (total_events : ℝ) / 5
    let event_score := min 4.0 (Real.logb 2 (1 + event_ratio) * 2)
    let avg_weighted := m.weighted_severity / (total_events : ℝ)
    let severity_score := min 4.0 (avg_weighted / 5 * 2)
    let recency_score :=
      if 0 < m.events_24h then
        min 2.0 (Real.logb 2 (1 + (m.events_24h : ℝ)) * 1.5)
      else if 0 < m.events_7d then
        min (2.0 / 2) (Real.logb 2 (1 + (m.events_7d : ℝ)) * 0.5)
      else 0.0
    min 10.0 (max 0.0 (event_score + severity_score + recency_score))

/-- Embedding of the `RiskLevel` enum. -/
inductive RiskLevel where
  | critical | high | moderate | low | minimal
  deriving DecidableEq, Repr

/-- Embedding of `RiskAssessment.calculate_risk_level` (`schemas.py`). -/
noncomputable def calculate_risk_level (score : ℝ) : RiskLevel :=
  if score ≥ 9 then RiskLevel.critical
  else if score ≥ 7 then RiskLevel.high
  else if score ≥ 5 then RiskLevel.moderate
  else if score ≥ 3 then RiskLevel.low
  else RiskLevel.minimal

/-- Model of Python `round(x, 1)`.  Mathlib's `round` rounds half away from
zero upward while Python rounds half to even, but the two agree except when
`10 * x` is an exact half-integer, a tie no theorem below goes near. -/
noncomputable def pyRound1 (x : ℝ) : ℝ := ((round (x * 10) : ℤ) : ℝ) / 10

/-- Model of Python `round(x, 2)`, same convention as `pyRound1`. -/
noncomputable def pyRound2 (x : ℝ) : ℝ := ((round (x * 100) : ℤ) : ℝ) / 100

/-- The fields of the returned `RiskAssessment` that the scorer computes
(the `location` display string is omitted: it is `f"{lat:.4f}, {lon:.4f}"`,
pure float formatting). -/
structure RiskAssessmentR where
  latitude : ℝ
  longitude : ℝ
  radius_km : ℝ
  risk_score : ℝ
  risk_level : RiskLevel
  total_events : ℕ
  events_last_24h : ℕ
  events_last_7d : ℕ
  total_severity_sum : ℝ
  weighted_severity : ℝ
  event_type_counts : List (String × ℕ)
  most_recent_event : Option ℤ
  analysis_start : ℤ
  analysis_end : ℤ

/-- Embedding of `RiskCalculator.calculate_risk`.  `now` is the value of
`datetime.now(timezone.utc)` (an explicit parameter here), `analysis_days`
the resolved window.  The first component is the returned assessment, the
second the caller's incident list after the call (the dicts
`_filter_incidents` kept were mutated in place). -/
noncomputable def calculate_risk (now : ℤ) (incidents : List MIncident)
    (center_lat center_lon : ℝ) (radius_km : ℝ := 2.0)
    (analysis_days : ℤ := 30) : RiskAssessmentR × List MIncident :=
  let analysis_start := now - analysis_days * 86400
  let filtered :=
    _filter_incidents incidents center_lat center_lon radius_km analysis_start
  let post :=
    _filter_incidents_post incidents center_lat center_lon radius_km
      analysis_start
  match filtered with
  | [] =>
    ({ latitude := center_lat, longitude := center_lon,
       radius_km := radius_km, risk_score := 0.0,
       risk_level := RiskLevel.minimal, total_events := 0,
       events_last_24h := 0, events_last_7d := 0, total_severity_sum := 0,
       weighted_severity := 0.0, event_type_counts := [],
       most_recent_event := none, analysis_start := analysis_start,
       analysis_end := now }, post)
  | _ :: _ =>
    let metrics := _calculate_metrics filtered now
    let risk_score := _calculate_final_score metrics filtered.length
    let risk_level := calculate_risk_level risk_score
    ({ latitude := center_lat, longitude := center_lon,
       radius_km := radius_km, risk_score := pyRound1 risk_score,
       risk_level := risk_level, total_events := filtered.length,
       events_last_24h := metrics.events_24h,
       events_last_7d := metrics.events_7d,
       total_severity_sum := metrics.severity_sum,
       weighted_severity := pyRound2 metrics.weighted_severity,
       event_type_counts := metrics.type_counts,
       most_recent_event := metrics.most_recent,
       analysis_start := analysis_start, analysis_end := now }, post)

/-- The pre-rounding composite score of a `calculate_risk` call: `0.0` when
the filtered set is empty (the early return), otherwise
`_calculate_final_score` of the metrics. -/
noncomputable def raw_risk_score (now : ℤ) (incidents : List MIncident)
    (center_lat center_lon : ℝ) (radius_km : ℝ := 2.0)
    (analysis_days : ℤ := 30) : ℝ :=
  let analysis_start := now - analysis_days * 86400
  let filtered :=
    _filter_incidents incidents center_lat center_lon radius_km analysis_start
  match filtered with
  | [] => 0.0
  | _ :: _ => _calculate_final_score (_calculate_metrics filtered now)
      filtered.length

/-! ## Concrete inputs used by counterexamples and witnesses -/

/-- A geocoder environment without an API key (`gmaps = None`). -/
def gNoClient : GClient :=
  { hasClient := false, geocodeResp := fun _ => some [],
    placesResp := fun _ => some [] }

/-- A geocoder environment whose collaborator always returns one in-bounds
result. -/
def gAlways : GClient :=
  { hasClient := true,
    geocodeResp := fun _ => some [(32, 35, "Somewhere, Israel")],
    placesResp := fun _ => some [(32, 35, "Some Place", "Somewhere, Israel")] }

/-- A cached geocoding result used to exercise the cache-hit path. -/
def resCached : GeocodingResult :=
  { success := true, latitude := 32.0853, longitude := 34.7818,
    formatted_address := "Tel Aviv", method := "google_geocoding",
    confidence := 0.9 }

/-- Stored incident for the C1 scenario: same event type, in the time window,
zero distance from the candidate, but an unrelated city name. -/
def metaCityMismatch : StoredMeta :=
  { event_type := some "brawl", timestamp := StoredTs.parsed 1000000,
    lat := some 32.0853, lon := some 34.7818, city := some "haifa",
    street := some "", incident_id := some "inc-1" }

/-- Stored incident for the C5 scenario: identical city, event type, location
and an in-window aware timestamp. -/
def metaInWindow : StoredMeta :=
  { event_type := some "brawl", timestamp := StoredTs.parsed 999000,
    lat := some 32.0853, lon := some 34.7818, city := some "tel aviv",
    street := some "", incident_id := some "inc-2" }

/-- Incident with no `"lat"`/`"lon"` keys but a valid timestamp. -/
noncomputable def incNoCoords : MIncident :=
  { tsv := some { wall := 1000000, tz := some 0 }, lat := none, lon := none,
    severity_score := some 5, event_type := some "brawl" }

/-- Incident with a severity far outside [1, 10]. -/
noncomputable def incBigSeverity : MIncident :=
  { tsv := some { wall := 1000000, tz := some 0 }, lat := some 0,
    lon := some 0, severity_score := some 100, event_type := some "brawl" }

/-- Incident with an unparsable (or missing) `"timestamp"` entry. -/
noncomputable def incBadTs : MIncident :=
  { tsv := none, lat := some 0, lon := some 0, severity_score := some 5,
    event_type := some "brawl" }

/-- A well-formed incident at the query point with the given severity,
timestamped `now = 1000000`. -/
noncomputable def mkInc (s : ℝ) : MIncident :=
  { tsv := some { wall := 1000000, tz := some 0 }, lat := some 0,
    lon := some 0, severity_score := some s, event_type := some "brawl" }

/-- The incident `mkInc s` after the filter loop kept it: distance 0 from the
query point and the parsed timestamp cached under the underscore keys. -/
noncomputable def mkIncF (s : ℝ) : MIncident :=
  { tsv := some { wall := 1000000, tz := some 0 }, lat := some 0,
    lon := some 0, severity_score := some s, event_type := some "brawl",
    d_distance_km := some 0,
    d_timestamp := some { wall := 1000000, tz := some 0 } }

/-- Fifteen incidents at the query point whose severities sum to 37: the
resulting composite score is exactly 8.96, which rounds to 9.0. -/
noncomputable def incsBoundary : List MIncident :=
  List.map mkInc [3, 3, 3, 3, 3, 3, 3, 2, 2, 2, 2, 2, 2, 2, 2]

/-! ## Relations used by the severity-monotonicity analysis -/

/-- Two incident dicts that agree on every key except that the severity of
the first is at most the severity of the second (with the code's default 5
for a missing `"severity_score"`). -/
def SevLe (a b : MIncident) : Prop :=
  a.tsv = b.tsv ∧ a.lat = b.lat ∧ a.lon = b.lon ∧
  a.event_type = b.event_type ∧ a.d_distance_km = b.d_distance_km ∧
  a.d_timestamp = b.d_timestamp ∧
  a.severity_score.getD 5 ≤ b.severity_score.getD 5

/-- Metric accumulators that agree except for a possibly larger weighted
severity (the severity sum is unconstrained: it does not feed the score). -/
def MetricsLe (m1 m2 : Metrics) : Prop :=
  m1.events_24h = m2.events_24h ∧ m1.events_7d = m2.events_7d ∧
  m1.type_counts = m2.type_counts ∧ m1.most_recent = m2.most_recent ∧
  m1.weighted_severity ≤ m2.weighted_severity

/-! ## Basic lemmas -/

/-- The haversine distance from a point to itself is zero. -/
theorem haversine_distance_self (lat lon : ℝ) :
    haversine_distance lat lon lat lon = 0 := by
  unfold haversine_distance pyRadians pyAtan2
  simp

/-! ## C1: the location gate of near-duplicate correlation -/

/-- C1 counterexample evaluation: a stored incident at the exact candidate
coordinates (great-circle distance 0 km ≤ 2 km), same event type, similarity
0.2 and an in-window timestamp is rejected solely because the lower-cased
city strings ("haifa" vs "tel aviv") are not substrings of one another: the
code requires `city_match` unconditionally, so closeness cannot compensate a
city mismatch, contrary to the claimed `city match OR distance ≤ threshold`. -/
theorem c1_city_mismatch_blocks_close_match :
    check_similar_incident [(some metaCityMismatch, 0.2)] "tel aviv"
      32.0853 34.7818 "brawl" { wall := 1000000, tz := some 0 } none 6 0.4 2
      = none := by
  rw [check_similar_incident, if_neg]
  · rw [check_similar_incident]
  · rw [acceptsStored]
    simp only [metaCityMismatch]
    rw [if_neg (by norm_num), if_neg (by decide), if_neg (by decide)]
    simp only [Bool.and_eq_true]
    rintro ⟨hcity, -⟩
    revert hcity
    decide

/-! ## C5: timezone normalization in the correlator's time-window check -/

/-- C5 failing-input evaluation: the candidate timestamp is naive while the
parsed stored timestamp is aware (the code always makes it aware), so the
window comparison `existing_timestamp < time_window_start` raises `TypeError`,
the `except` clause turns it into `continue`, and a stored incident that
matches on similarity, event type, city, location and lies squarely inside
the `[-6 h, +1 h]` window is skipped: no match is returned.  The normalized
`timestamp_aware` the code computes is never used in the comparison. -/
theorem c5_naive_candidate_skips_in_window_match :
    check_similar_incident [(some metaInWindow, 0.1)] "tel aviv"
      32.0853 34.7818 "brawl" { wall := 1000000, tz := none } none 6 0.4 2
      = none := by
  rw [check_similar_incident, if_neg]
  · rw [check_similar_incident]
  · rw [acceptsStored]
    simp only [metaInWindow]
    rw [if_neg (by norm_num), if_neg (by decide)]
    simp

/-! ## C2: incidents with missing coordinates in the risk filter -/

/-- C2 counterexample: an incident whose dict has no `"lat"`/`"lon"` keys is
not excluded by `_filter_incidents`; `incident.get("lat", 0)` defaults the
coordinates to `(0, 0)`, and with the query centre at `(0, 0)` the incident
is retained and counted. -/
theorem c2_missing_coords_counted_at_origin :
    (calculate_risk 1000000 [incNoCoords] 0 0 1 30).1.total_events = 1 := by
  have hfs : filterStep 0 0 1 (1000000 - 30 * 86400) incNoCoords =
      some { tsv := some ⟨1000000, some 0⟩, lat := none, lon := none,
             severity_score := some 5, event_type := some "brawl",
             d_distance_km := some 0,
             d_timestamp := some ⟨1000000, some 0⟩ } := by
    rw [filterStep]
    simp only [incNoCoords]
    rw [if_neg (by norm_num [PyDateTime.instant])]
    simp only [Option.getD_none, haversine_distance_self]
    rw [if_pos (by norm_num)]
  rw [calculate_risk]
  simp only [_filter_incidents, List.filterMap_cons, List.filterMap_nil, hfs]
  rfl

/-- C2 amended, proved: when the `"lat"`/`"lon"` keys are absent and the
timestamp is present and in-window, the incident passes the radius filter iff
the point `(0, 0)` is within `radius_km` of the centre — missing coordinates
are defaulted to `(0, 0)`, not excluded. -/
theorem c2_missing_coords_default_to_origin (clat clon radius : ℝ)
    (cutoff : ℤ) (inc : MIncident) (ts : PyDateTime) (hts : inc.tsv = some ts)
    (hlat : inc.lat = none) (hlon : inc.lon = none)
    (htime : ¬ts.instant < cutoff) :
    (filterStep clat clon radius cutoff inc).isSome = true ↔
      haversine_distance clat clon 0 0 ≤ radius := by
  rw [filterStep]
  simp only [hts, hlat, hlon, Option.getD_none]
  rw [if_neg htime]
  by_cases hd : haversine_distance clat clon 0 0 ≤ radius
  · rw [if_pos hd]
    simp [hd]
  · rw [if_neg hd]
    simp [hd]

/-- Witness for `c2_missing_coords_default_to_origin` at a concrete input. -/
theorem c2_missing_coords_default_to_origin_witness :
    (filterStep 0 0 1 (1000000 - 30 * 86400) incNoCoords).isSome = true ↔
      haversine_distance 0 0 0 0 ≤ 1 :=
  c2_missing_coords_default_to_origin 0 0 1 (1000000 - 30 * 86400) incNoCoords
    ⟨1000000, some 0⟩ rfl rfl rfl (by norm_num [PyDateTime.instant])

/-! ## C9: malformed timestamps and out-of-range severities during scoring -/

/-- C9 counterexample: an incident whose `severity_score` is 100 — far outside
[1, 10] — is not skipped: it is counted and its severity contributes in full
to the severity sum (`_calculate_metrics` reads `incident.get("severity_score",
5)` without any range check). -/
theorem c9_out_of_range_severity_contributes :
    (calculate_risk 1000000 [incBigSeverity] 0 0 1 30).1.total_severity_sum
      = 100 ∧
    (calculate_risk 1000000 [incBigSeverity] 0 0 1 30).1.total_events = 1 := by
  have hfs : filterStep 0 0 1 (1000000 - 30 * 86400) incBigSeverity =
      some { tsv := some ⟨1000000, some 0⟩, lat := some 0, lon := some 0,
             severity_score := some 100, event_type := some "brawl",
             d_distance_km := some 0,
             d_timestamp := some ⟨1000000, some 0⟩ } := by
    rw [filterStep]
    simp only [incBigSeverity]
    rw [if_neg (by norm_num [PyDateTime.instant])]
    simp only [Option.getD_some, haversine_distance_self]
    rw [if_pos (by norm_num)]
  rw [calculate_risk]
  simp only [_filter_incidents, List.filterMap_cons, List.filterMap_nil, hfs]
  constructor
  · norm_num [_calculate_metrics, List.foldl, metricsStep]
  · rfl

/-- C9 amended, proved: an incident whose `"timestamp"` entry is missing or
unparsable is skipped individually — the returned assessment over any list
containing it equals the assessment over the list without it, and the
computation never aborts. -/
theorem c9_bad_timestamp_skipped (now : ℤ) (incidents : List MIncident)
    (clat clon radius : ℝ) (days : ℤ) (inc : MIncident)
    (hts : inc.tsv = none) :
    (calculate_risk now (inc :: incidents) clat clon radius days).1 =
      (calculate_risk now incidents clat clon radius days).1 := by
  have hfs : filterStep clat clon radius (now - days * 86400) inc = none := by
    rw [filterStep, hts]
  have hfilter : _filter_incidents (inc :: incidents) clat clon radius
      (now - days * 86400) =
      _filter_incidents incidents clat clon radius (now - days * 86400) := by
    rw [_filter_incidents, _filter_incidents, List.filterMap_cons, hfs]
  simp only [calculate_risk, hfilter]
  cases _filter_incidents incidents clat clon radius (now - days * 86400) with
  | nil => rfl
  | cons a rest => rfl

/-- Witness for `c9_bad_timestamp_skipped` at a concrete input. -/
theorem c9_bad_timestamp_skipped_witness :
    (calculate_risk 1000000 [incBadTs] 0 0 1 30).1 =
      (calculate_risk 1000000 [] 0 0 1 30).1 :=
  c9_bad_timestamp_skipped 1000000 [] 0 0 1 30 incBadTs rfl

/-! ## C10: mutation of the caller's incident dicts -/

/-- The fields of a kept incident other than the two underscore keys are
unchanged by the filter loop. -/
theorem filterStep_fields (clat clon radius : ℝ) (cutoff : ℤ)
    (a u : MIncident)
    (h : filterStep clat clon radius cutoff a = some u) :
    u.tsv = a.tsv ∧ u.lat = a.lat ∧ u.lon = a.lon ∧
      u.severity_score = a.severity_score ∧ u.event_type = a.event_type := by
  rw [filterStep] at h
  cases hts : a.tsv with
  | none => rw [hts] at h; exact absurd h (by simp)
  | some ts =>
    simp only [hts] at h
    split_ifs at h with h1 h2
    injection h with h3
    subst h3
    simp [hts]

/-- The second component of `calculate_risk` is the post-call incident list. -/
theorem calculate_risk_snd (now : ℤ) (incidents : List MIncident)
    (clat clon radius : ℝ) (days : ℤ) :
    (calculate_risk now incidents clat clon radius days).2 =
      _filter_incidents_post incidents clat clon radius
        (now - days * 86400) := by
  simp only [calculate_risk]
  cases _filter_incidents incidents clat clon radius (now - days * 86400) with
  | nil => rfl
  | cons a rest => rfl

/-- C10 counterexample: after `calculate_risk` returns, the caller's incident
dict is no longer equal to what was passed in — the filter loop wrote the
`"_distance_km"` and `"_timestamp"` keys into it. -/
theorem c10_calculate_risk_mutates_input :
    (calculate_risk 1000000 [mkInc 5] 0 0 2 30).2 ≠ [mkInc 5] := by
  have hfs : filterStep 0 0 2 (1000000 - 30 * 86400) (mkInc 5) =
      some { tsv := some ⟨1000000, some 0⟩, lat := some 0, lon := some 0,
             severity_score := some 5, event_type := some "brawl",
             d_distance_km := some 0,
             d_timestamp := some ⟨1000000, some 0⟩ } := by
    rw [filterStep]
    simp only [mkInc]
    rw [if_neg (by norm_num [PyDateTime.instant])]
    simp only [Option.getD_some, haversine_distance_self]
    rw [if_pos (by norm_num)]
  rw [calculate_risk_snd]
  rw [_filter_incidents_post]
  simp only [List.map_cons, List.map_nil, hfs, Option.getD_some]
  intro h
  injection h with h1 h2
  have := congrArg MIncident.d_distance_km h1
  simp [mkInc] at this

/-- C10 amended, proved: the call changes only the `"_distance_km"` and
`"_timestamp"` entries of the caller's dicts; every other field of every
incident is preserved, and skipped incidents are untouched. -/
theorem c10_only_underscore_keys_change (now : ℤ) (incidents : List MIncident)
    (clat clon radius : ℝ) (days : ℤ) :
    List.Forall₂
      (fun a b => a.tsv = b.tsv ∧ a.lat = b.lat ∧ a.lon = b.lon ∧
        a.severity_score = b.severity_score ∧ a.event_type = b.event_type)
      incidents (calculate_risk now incidents clat clon radius days).2 := by
  rw [calculate_risk_snd, _filter_incidents_post]
  induction incidents with
  | nil => exact List.Forall₂.nil
  | cons a l ih =>
    rw [List.map_cons]
    refine List.Forall₂.cons ?_ ih
    cases hfa : filterStep clat clon radius (now - days * 86400) a with
    | none =>
      simp [hfa]
    | some u =>
      simp only [hfa, Option.getD_some]
      obtain ⟨h1, h2, h3, h4, h5⟩ :=
        filterStep_fields clat clon radius (now - days * 86400) a u hfa
      exact ⟨h1.symm, h2.symm, h3.symm, h4.symm, h5.symm⟩

/-! ## C4: risk level versus the rounded risk score -/

/-- Evaluation of the event-type weight of `"brawl"`. -/
theorem event_weight_brawl : event_weight "brawl" = 1.0 := by
  rw [event_weight]
  rw [if_neg (by decide), if_neg (by decide), if_neg (by decide),
    if_neg (by decide), if_pos rfl]

/-- The filter keeps `mkInc s` at the query point, caching distance 0. -/
theorem filterStep_mkInc (s : ℝ) :
    filterStep 0 0 2 (1000000 - 30 * 86400) (mkInc s) = some (mkIncF s) := by
  rw [filterStep]
  simp only [mkInc]
  rw [if_neg (by norm_num [PyDateTime.instant])]
  simp only [Option.getD_some, haversine_distance_self]
  rw [if_pos (by norm_num)]
  rw [mkIncF]

/-- Metrics of the fifteen boundary incidents: all in the last 24 hours,
severity sum 37, weighted severity 111. -/
theorem metrics_incsBoundary :
    _calculate_metrics
      (List.map mkIncF [3, 3, 3, 3, 3, 3, 3, 2, 2, 2, 2, 2, 2, 2, 2]) 1000000
      = { events_24h := 15, events_7d := 15, severity_sum := 37,
          weighted_severity := 111, type_counts := [("brawl", 15)],
          most_recent := some 1000000 } := by
  rw [_calculate_metrics]
  simp only [List.map_cons, List.map_nil, List.foldl_cons, List.foldl_nil,
    metricsStep, mkIncF, Option.getD_some, PyDateTime.instant,
    event_weight_brawl]
  norm_num [bumpCount]

/-- The composite score of the boundary metrics is exactly 8.96: event
component 4 (15 events), severity component 2.96 (average weighted severity
7.4), recency component 2. -/
theorem final_score_boundary :
    _calculate_final_score
      { events_24h := 15, events_7d := 15, severity_sum := 37,
        weighted_severity := 111, type_counts := [("brawl", 15)],
        most_recent := some 1000000 } 15 = 8.96 := by
  have hlog4 : Real.logb 2 (4 : ℝ) = 2 := by
    rw [show (4 : ℝ) = 2 ^ (2 : ℕ) by norm_num, Real.logb_pow,
      Real.logb_self_eq_one (by norm_num)]
    norm_num
  have hlog16 : Real.logb 2 (16 : ℝ) = 4 := by
    rw [show (16 : ℝ) = 2 ^ (4 : ℕ) by norm_num, Real.logb_pow,
      Real.logb_self_eq_one (by norm_num)]
    norm_num
  rw [_calculate_final_score, if_neg (by norm_num)]
  simp only
  rw [if_pos (by norm_num)]
  rw [show ((1 : ℝ) + (15 : ℕ) / 5) = 4 by norm_num]
  rw [show ((1 : ℝ) + ((15 : ℕ) : ℝ)) = 16 by norm_num]
  rw [hlog4, hlog16]
  norm_num [min_def, max_def]

/-- C4 counterexample: on the fifteen boundary incidents the pre-rounding
score is 8.96, so the returned `risk_score` field is the rounded 9.0 while
the returned `risk_level` is HIGH — but the fixed-threshold mapping of the
returned score 9.0 is CRITICAL.  The claim that the level always equals the
mapping of the returned score (and that a returned 9.0 carries CRITICAL)
fails. -/
theorem c4_rounded_score_level_mismatch :
    (calculate_risk 1000000 incsBoundary 0 0 2 30).1.risk_score = 9 ∧
    (calculate_risk 1000000 incsBoundary 0 0 2 30).1.risk_level
      = RiskLevel.high ∧
    calculate_risk_level 9 = RiskLevel.critical := by
  have hfiltered : _filter_incidents incsBoundary 0 0 2 (1000000 - 30 * 86400)
      = List.map mkIncF [3, 3, 3, 3, 3, 3, 3, 2, 2, 2, 2, 2, 2, 2, 2] := by
    rw [_filter_incidents, incsBoundary]
    simp only [List.map_cons, List.map_nil, List.filterMap_cons,
      List.filterMap_nil, filterStep_mkInc]
  have hlen : (List.map mkIncF
      [(3 : ℝ), 3, 3, 3, 3, 3, 3, 2, 2, 2, 2, 2, 2, 2, 2]).length = 15 := by
    simp
  refine ⟨?_, ?_, ?_⟩
  · rw [calculate_risk]
    simp only [hfiltered, List.map_cons, List.map_nil]
    simp only [← List.map_cons, ← List.map_nil (f := mkIncF), hlen,
      metrics_incsBoundary, final_score_boundary]
    rw [show (8.96 : ℝ) = 896 / 100 by norm_num]
    norm_num [pyRound1, round_eq]
  · rw [calculate_risk]
    simp only [hfiltered, List.map_cons, List.map_nil]
    simp only [← List.map_cons, ← List.map_nil (f := mkIncF), hlen,
      metrics_incsBoundary, final_score_boundary]
    rw [calculate_risk_level]
    rw [if_neg (by norm_num), if_pos (by norm_num)]
  · rw [calculate_risk_level, if_pos (by norm_num)]

/-- C4 amended, proved: the returned `risk_level` always equals the
fixed-threshold mapping (CRITICAL ≥ 9, HIGH ≥ 7, MODERATE ≥ 5, LOW ≥ 3,
MINIMAL otherwise) of the pre-rounding composite score; the returned
`risk_score` field is that score rounded to one decimal, so the two can
straddle a threshold. -/
theorem c4_level_matches_preround_score (now : ℤ)
    (incidents : List MIncident) (clat clon radius : ℝ) (days : ℤ) :
    (calculate_risk now incidents clat clon radius days).1.risk_level =
      calculate_risk_level
        (raw_risk_score now incidents clat clon radius days) := by
  simp only [calculate_risk, raw_risk_score]
  cases _filter_incidents incidents clat clon radius (now - days * 86400) with
  | nil => norm_num [calculate_risk_level]
  | cons a rest => rfl


/-! ## C8: monotonicity of the score in any single incident's severity -/

/-- Every event-type weight is nonnegative. -/
theorem event_weight_nonneg (t : String) : 0 ≤ event_weight t := by
  rw [event_weight]
  split_ifs <;> norm_num

/-- `SevLe` is reflexive. -/
theorem sevLe_refl (a : MIncident) : SevLe a a :=
  ⟨rfl, rfl, rfl, rfl, rfl, rfl, le_refl _⟩

/-- The filter decision and the cached underscore keys do not depend on the
severity, so `filterStep` maps `SevLe`-related incidents to `SevLe`-related
results. -/
theorem filterStep_sevLe (clat clon radius : ℝ) (cutoff : ℤ)
    (a b : MIncident) (h : SevLe a b) :
    Option.Rel SevLe (filterStep clat clon radius cutoff a)
      (filterStep clat clon radius cutoff b) := by
  obtain ⟨h1, h2, h3, h4, h5, h6, h7⟩ := h
  cases hb : b.tsv with
  | none =>
    rw [filterStep, filterStep]
    simp only [h1, hb]
    exact Option.Rel.none
  | some ts =>
    rw [filterStep, filterStep]
    simp only [h1, h2, h3, h4, hb]
    by_cases ht : ts.instant < cutoff
    · rw [if_pos ht, if_pos ht]
      exact Option.Rel.none
    · rw [if_neg ht, if_neg ht]
      by_cases hd : haversine_distance clat clon (b.lat.getD 0) (b.lon.getD 0)
          ≤ radius
      · rw [if_pos hd, if_pos hd]
        exact Option.Rel.some ⟨rfl, rfl, rfl, rfl, rfl, rfl, h7⟩
      · rw [if_neg hd, if_neg hd]
        exact Option.Rel.none

/-- `_filter_incidents` preserves pointwise `SevLe`. -/
theorem filter_incidents_sevLe (clat clon radius : ℝ) (cutoff : ℤ)
    (l1 l2 : List MIncident) (h : List.Forall₂ SevLe l1 l2) :
    List.Forall₂ SevLe (_filter_incidents l1 clat clon radius cutoff)
      (_filter_incidents l2 clat clon radius cutoff) := by
  rw [_filter_incidents, _filter_incidents]
  induction h with
  | nil => exact List.Forall₂.nil
  | @cons a b l1t l2t hab htail ih =>
    rw [List.filterMap_cons, List.filterMap_cons]
    have hrel := filterStep_sevLe clat clon radius cutoff _ _ hab
    cases hfa : filterStep clat clon radius cutoff a with
    | none =>
      cases hfb : filterStep clat clon radius cutoff b with
      | none => exact ih
      | some u =>
        rw [hfa, hfb] at hrel
        cases hrel
    | some u =>
      cases hfb : filterStep clat clon radius cutoff b with
      | none =>
        rw [hfa, hfb] at hrel
        cases hrel
      | some v =>
        rw [hfa, hfb] at hrel
        cases hrel with
        | some huv => exact List.Forall₂.cons huv ih

/-- One metrics-loop iteration preserves `MetricsLe` across `SevLe`-related
incidents: the recency bucket, type counts and most-recent tracking read only
fields the relation fixes, and the weighted-severity contribution is monotone
because both the recency weight and the type weight are nonnegative. -/
theorem metricsStep_sevLe (now : ℤ) (m1 m2 : Metrics) (a b : MIncident)
    (hab : SevLe a b) (hm : MetricsLe m1 m2) :
    MetricsLe (metricsStep now m1 a) (metricsStep now m2 b) := by
  obtain ⟨h1, h2, h3, h4, h5, h6, h7⟩ := hab
  obtain ⟨g1, g2, g3, g4, g5⟩ := hm
  rw [metricsStep, metricsStep]
  simp only [h4, h6, g1, g2, g3, g4]
  have hw : 0 ≤ event_weight (b.event_type.getD "unknown") :=
    event_weight_nonneg _
  refine ⟨rfl, rfl, rfl, rfl, ?_⟩
  simp only
  by_cases hb1 : (b.d_timestamp.getD { wall := now, tz := some 0 }).instant
      ≥ now - 24 * 3600
  · rw [if_pos hb1]
    simp only
    nlinarith [h7, hw, g5]
  · rw [if_neg hb1]
    by_cases hb2 : (b.d_timestamp.getD { wall := now, tz := some 0 }).instant
        ≥ now - 168 * 3600
    · rw [if_pos hb2]
      simp only
      nlinarith [h7, hw, g5]
    · rw [if_neg hb2]
      simp only
      nlinarith [h7, hw, g5]

/-- The metrics fold preserves `MetricsLe` over pointwise `SevLe` lists. -/
theorem metrics_foldl_sevLe (now : ℤ) (l1 l2 : List MIncident)
    (h : List.Forall₂ SevLe l1 l2) :
    ∀ m1 m2 : Metrics, MetricsLe m1 m2 →
      MetricsLe (l1.foldl (metricsStep now) m1) (l2.foldl (metricsStep now) m2) := by
  induction h with
  | nil => exact fun m1 m2 hm => hm
  | @cons a b l1t l2t hab htail ih =>
    intro m1 m2 hm
    rw [List.foldl_cons, List.foldl_cons]
    exact ih _ _ (metricsStep_sevLe now m1 m2 a b hab hm)

/-- `_calculate_metrics` preserves `MetricsLe` over pointwise `SevLe` lists. -/
theorem calculate_metrics_sevLe (now : ℤ) (l1 l2 : List MIncident)
    (h : List.Forall₂ SevLe l1 l2) :
    MetricsLe (_calculate_metrics l1 now) (_calculate_metrics l2 now) := by
  rw [_calculate_metrics, _calculate_metrics]
  obtain ⟨k1, k2, k3, k4, k5⟩ :=
    metrics_foldl_sevLe now l1 l2 h
      { events_24h := 0, events_7d := 0, severity_sum := 0,
        weighted_severity := 0, type_counts := [], most_recent := none }
      { events_24h := 0, events_7d := 0, severity_sum := 0,
        weighted_severity := 0, type_counts := [], most_recent := none }
      ⟨rfl, rfl, rfl, rfl, le_refl _⟩
  exact ⟨k1, by simp only [k1, k2], k3, k4, k5⟩

/-- `_calculate_final_score` is monotone in the weighted severity when every
other metric agrees. -/
theorem final_score_metricsLe (m1 m2 : Metrics) (n : ℕ)
    (h : MetricsLe m1 m2) :
    _calculate_final_score m1 n ≤ _calculate_final_score m2 n := by
  obtain ⟨g1, g2, g3, g4, g5⟩ := h
  rw [_calculate_final_score, _calculate_final_score]
  by_cases hn : n = 0
  · rw [if_pos hn, if_pos hn]
  · rw [if_neg hn, if_neg hn]
    simp only [g1, g2]
    have hnpos : (0 : ℝ) < (n : ℝ) := by
      exact_mod_cast Nat.pos_of_ne_zero hn
    have hsev : m1.weighted_severity / (n : ℝ) / 5 * 2 ≤
        m2.weighted_severity / (n : ℝ) / 5 * 2 := by
      refine mul_le_mul_of_nonneg_right ?_ (by norm_num)
      refine (div_le_div_iff_of_pos_right (by norm_num)).mpr ?_
      exact (div_le_div_iff_of_pos_right hnpos).mpr g5
    refine min_le_min (le_refl _) (max_le_max (le_refl _) ?_)
    refine add_le_add (add_le_add (le_refl _) ?_) (le_refl _)
    exact min_le_min (le_refl _) hsev

/-- Python `round(x, 1)` is monotone. -/
theorem pyRound1_mono (a b : ℝ) (h : a ≤ b) : pyRound1 a ≤ pyRound1 b := by
  rw [pyRound1, pyRound1]
  have hr : round (a * 10) ≤ round (b * 10) := by
    rw [round_eq, round_eq]
    exact Int.floor_le_floor (by linarith)
  have hc : ((round (a * 10) : ℤ) : ℝ) ≤ ((round (b * 10) : ℤ) : ℝ) := by
    exact_mod_cast hr
  gcongr

/-- C8 confirmed: raising the severity of any single incident of the list
while holding every other field of every incident fixed can only raise (or
keep) the risk score returned by `calculate_risk`. -/
theorem c8_severity_monotone (now : ℤ) (incidents : List MIncident) (i : ℕ)
    (a b : MIncident) (clat clon radius : ℝ) (days : ℤ)
    (hfields : a.tsv = b.tsv ∧ a.lat = b.lat ∧ a.lon = b.lon ∧
      a.event_type = b.event_type ∧ a.d_distance_km = b.d_distance_km ∧
      a.d_timestamp = b.d_timestamp)
    (hsev : a.severity_score.getD 5 ≤ b.severity_score.getD 5) :
    (calculate_risk now (incidents.set i a) clat clon radius
        days).1.risk_score ≤
      (calculate_risk now (incidents.set i b) clat clon radius
        days).1.risk_score := by
  have hab : SevLe a b :=
    ⟨hfields.1, hfields.2.1, hfields.2.2.1, hfields.2.2.2.1,
      hfields.2.2.2.2.1, hfields.2.2.2.2.2, hsev⟩
  have hset : List.Forall₂ SevLe (incidents.set i a) (incidents.set i b) := by
    induction incidents generalizing i with
    | nil => exact List.Forall₂.nil
    | cons x l ih =>
      cases i with
      | zero =>
        exact List.Forall₂.cons hab
          (List.forall₂_same.mpr (fun y _ => sevLe_refl y))
      | succ j => exact List.Forall₂.cons (sevLe_refl x) (ih j)
  have hfilt := filter_incidents_sevLe clat clon radius (now - days * 86400)
    _ _ hset
  simp only [calculate_risk]
  revert hfilt
  cases hfa : _filter_incidents (incidents.set i a) clat clon radius
      (now - days * 86400) with
  | nil =>
    cases hfb : _filter_incidents (incidents.set i b) clat clon radius
        (now - days * 86400) with
    | nil => exact fun _ => le_refl _
    | cons v tv => exact fun hfilt => (by cases hfilt)
  | cons u tu =>
    cases hfb : _filter_incidents (incidents.set i b) clat clon radius
        (now - days * 86400) with
    | nil => exact fun hfilt => (by cases hfilt)
    | cons v tv =>
      intro hfilt
      show pyRound1 (_calculate_final_score (_calculate_metrics (u :: tu) now)
          (u :: tu).length) ≤
        pyRound1 (_calculate_final_score (_calculate_metrics (v :: tv) now)
          (v :: tv).length)
      rw [hfilt.length_eq]
      exact pyRound1_mono _ _
        (final_score_metricsLe _ _ _ (calculate_metrics_sevLe now _ _ hfilt))

/-- Witness for `c8_severity_monotone` at a concrete input (severity 3 raised
to 5 on a one-incident list). -/
theorem c8_severity_monotone_witness :
    ((mkInc 3).severity_score.getD 5 ≤ (mkInc 5).severity_score.getD 5) ∧
    (calculate_risk 1000000 ([mkInc 3].set 0 (mkInc 3)) 0 0 2
        30).1.risk_score ≤
      (calculate_risk 1000000 ([mkInc 3].set 0 (mkInc 5)) 0 0 2
        30).1.risk_score :=
  ⟨by norm_num [mkInc],
    c8_severity_monotone 1000000 [mkInc 3] 0 (mkInc 3) (mkInc 5) 0 0 2 30
      ⟨rfl, rfl, rfl, rfl, rfl, rfl⟩ (by norm_num [mkInc])⟩

/-! ## C3: totality of the geocoder -/

/-- C3 counterexample: with no API client, an empty location text and no city
hint, every strategy block is skipped, the `result` local is still `None`
when line 306 evaluates `result.success`, and `geocode` raises
`AttributeError` instead of returning a fallback result. -/
theorem c3_empty_input_no_client_raises :
    geocode gNoClient [] "" none = none := by
  rfl

/-- C3 amended, helper: the strategy pipeline produces a result whenever the
location text is truthy, or the city hint is truthy, or a client exists. -/
theorem resolveUncached_isSome (g : GClient) (loc : String)
    (city : Option String)
    (h : pyTruthy loc = true ∨ optTruthy city = true ∨ g.hasClient = true) :
    (resolveUncached g loc city).isSome = true := by
  simp only [resolveUncached]
  split_ifs <;> simp_all [resFail]

/-- C3 amended, proved: `geocode` returns a `GeocodedLocation` (never raises)
whenever the location text is non-empty, or a non-empty city hint is given,
or the external client is configured; only the triple of empty text, absent
or empty city and missing client reaches the `AttributeError`. -/
theorem c3_geocode_total_unless_all_empty (g : GClient) (cache : GeoCache)
    (loc : String) (city : Option String)
    (h : pyTruthy loc = true ∨ optTruthy city = true ∨ g.hasClient = true) :
    (geocode g cache loc city).isSome = true := by
  simp only [geocode]
  cases hl : List.lookup (geocodeCacheKey loc city) cache with
  | some cached => simp
  | none =>
    have hres := resolveUncached_isSome g loc city h
    cases hr : resolveUncached g loc city with
    | none => rw [hr] at hres; simp at hres
    | some res => simp

/-- Witness for `c3_geocode_total_unless_all_empty` at a concrete input. -/
theorem c3_geocode_total_unless_all_empty_witness :
    (geocode gNoClient [] "tel aviv" none).isSome = true :=
  c3_geocode_total_unless_all_empty gNoClient [] "tel aviv" none
    (Or.inl (by decide))

/-! ## C6: cache idempotence of the geocoder -/

/-- C6 confirmed: if a `geocode` call returns a result and a cache state,
calling again with the same (locationText, cityHint) pair on that state hits
the cache and returns the identical `GeocodedLocation` (field for field, by
equality of the structure) with the cache unchanged. -/
theorem c6_geocode_idempotent (g : GClient) (cache : GeoCache) (loc : String)
    (city : Option String) (r : GeocodedLocation) (cache' : GeoCache)
    (h : geocode g cache loc city = some (r, cache')) :
    geocode g cache' loc city = some (r, cache') := by
  simp only [geocode] at h ⊢
  cases hl : List.lookup (geocodeCacheKey loc city) cache with
  | some cached =>
    rw [hl] at h
    simp only [Option.some.injEq, Prod.mk.injEq] at h
    obtain ⟨hr, hc⟩ := h
    subst hc
    rw [hl]
    simp [hr]
  | none =>
    rw [hl] at h
    cases hres : resolveUncached g loc city with
    | none =>
      rw [hres] at h
      exact absurd h (by simp)
    | some res =>
      rw [hres] at h
      simp only [Option.some.injEq, Prod.mk.injEq] at h
      obtain ⟨hr, hc⟩ := h
      subst hc
      simp [List.lookup, hr]

/-- Witness for `c6_geocode_idempotent` at a concrete input: a cache that
already holds the key, so the call is a cache hit. -/
theorem c6_geocode_idempotent_witness :
    geocode gNoClient [("a|none", resCached)] "a" none =
      some (toGeocodedLocation resCached, [("a|none", resCached)]) :=
  c6_geocode_idempotent gNoClient [("a|none", resCached)] "a" none
    (toGeocodedLocation resCached) [("a|none", resCached)] (by rfl)

/-! ## C7: confidence ordering along the fallback chain -/

/-- Every successful primary-API (forward-geocoding) result has confidence
0.9. -/
theorem try_google_geocoding_confidence (g : GClient) (q : String)
    (c : Option String) :
    (_try_google_geocoding g q c).success = true →
      (_try_google_geocoding g q c).confidence = 0.9 := by
  rw [_try_google_geocoding]
  split_ifs <;> try simp
  all_goals (split <;> (try simp) <;> split_ifs <;> simp)

/-- Every successful places-search result has confidence 0.85. -/
theorem try_google_places_confidence (g : GClient) (q : String)
    (c : Option String) :
    (_try_google_places g q c).success = true →
      (_try_google_places g q c).confidence = 0.85 := by
  rw [_try_google_places]
  split_ifs <;> try simp
  all_goals (split <;> (try simp) <;> split_ifs <;> simp)

/-- Every gazetteer exact match has confidence 0.7 and every gazetteer
partial match has confidence 0.6, distinguished by the method tag. -/
theorem try_known_locations_confidence (l : String) :
    ((_try_known_locations l).method = "known_locations" →
      (_try_known_locations l).confidence = 0.7) ∧
    ((_try_known_locations l).method = "known_locations_partial" →
      (_try_known_locations l).confidence = 0.6) := by
  rw [_try_known_locations]
  constructor <;> (split <;> (try simp) <;> split <;> (try simp)) <;>
    (intro h; exact absurd h (by decide))

/-- Every text-extraction fallback result has confidence 0.4, and the
terminal default-center fallback has confidence 0.1. -/
theorem extract_and_fallback_confidence (t : String) :
    ((_extract_and_fallback t).success = true →
      (_extract_and_fallback t).confidence = 0.4) ∧
    ((_extract_and_fallback t).success = false →
      (_extract_and_fallback t).confidence = 0.1) := by
  rw [_extract_and_fallback]
  constructor <;> (split <;> simp)

/-- C7 confirmed: the confidence attached to a result strictly decreases
along the fallback chain, for all inputs: any successful primary-API result
(0.9) exceeds any successful places result (0.85), which exceeds any
gazetteer exact match (0.7), which exceeds any gazetteer partial match
(0.6), which exceeds any text-extraction fallback (0.4), which exceeds the
terminal default-center fallback (0.1). -/
theorem c7_confidence_strictly_decreasing (g g' : GClient) (q q' : String)
    (c c' : Option String) (l1 l2 t1 t2 : String) :
    ((_try_google_geocoding g q c).success = true →
      (_try_google_places g' q' c').success = true →
      (_try_google_places g' q' c').confidence <
        (_try_google_geocoding g q c).confidence) ∧
    ((_try_google_places g' q' c').success = true →
      (_try_known_locations l1).method = "known_locations" →
      (_try_known_locations l1).confidence <
        (_try_google_places g' q' c').confidence) ∧
    ((_try_known_locations l1).method = "known_locations" →
      (_try_known_locations l2).method = "known_locations_partial" →
      (_try_known_locations l2).confidence <
        (_try_known_locations l1).confidence) ∧
    ((_try_known_locations l2).method = "known_locations_partial" →
      (_extract_and_fallback t1).success = true →
      (_extract_and_fallback t1).confidence <
        (_try_known_locations l2).confidence) ∧
    ((_extract_and_fallback t1).success = true →
      (_extract_and_fallback t2).success = false →
      (_extract_and_fallback t2).confidence <
        (_extract_and_fallback t1).confidence) := by
  refine ⟨fun h1 h2 => ?_, fun h2 h3 => ?_, fun h3 h4 => ?_,
    fun h4 h5 => ?_, fun h5 h6 => ?_⟩
  · rw [try_google_geocoding_confidence g q c h1,
      try_google_places_confidence g' q' c' h2]
    norm_num
  · rw [try_google_places_confidence g' q' c' h2,
      (try_known_locations_confidence l1).1 h3]
    norm_num
  · rw [(try_known_locations_confidence l1).1 h3,
      (try_known_locations_confidence l2).2 h4]
    norm_num
  · rw [(try_known_locations_confidence l2).2 h4,
      (extract_and_fallback_confidence t1).1 h5]
    norm_num
  · rw [(extract_and_fallback_confidence t1).1 h5,
      (extract_and_fallback_confidence t2).2 h6]
    norm_num

/-- Witness for `c7_confidence_strictly_decreasing`: concrete inputs
exercising each tier (API success, places success, gazetteer exact match
"tel aviv", gazetteer partial match "tel avi", text extraction
"near tel aviv", terminal fallback "zzz"). -/
theorem c7_confidence_strictly_decreasing_witness :
    ((_try_google_places gAlways "x" none).confidence <
      (_try_google_geocoding gAlways "x" none).confidence) ∧
    ((_try_known_locations "tel aviv").confidence <
      (_try_google_places gAlways "x" none).confidence) ∧
    ((_try_known_locations "tel avi").confidence <
      (_try_known_locations "tel aviv").confidence) ∧
    ((_extract_and_fallback "near tel aviv").confidence <
      (_try_known_locations "tel avi").confidence) ∧
    ((_extract_and_fallback "zzz").confidence <
      (_extract_and_fallback "near tel aviv").confidence) := by
  obtain ⟨k1, k2, k3, k4, k5⟩ :=
    c7_confidence_strictly_decreasing gAlways gAlways "x" "x" none none
      "tel aviv" "tel avi" "near tel aviv" "zzz"
  exact ⟨k1 (by decide) (by decide), k2 (by decide) (by decide),
    k3 (by decide) (by decide), k4 (by decide) (by decide),
    k5 (by decide) (by decide)⟩
